import Mathlib

/-!
# Verification of the WinBoat container-runtime abstraction layer

Shallow embedding of the `ContainerRuntime` class (Docker/Podman detection,
capability probing, command dispatch) and of the host-readiness collector
(`specs.ts`).  External command execution (`execAsync`) and file reads are
modelled by an oracle `World`; the class's static fields by an explicit
`CacheState` threaded through every operation.  A successful `execAsync`
is `some stdout`; a thrown exception is `none`.  Each operation also
returns the list of external commands it issued, so that cache-hit
behaviour ("no further probes") is observable.
-/

namespace Winboat

/-! ## String helpers (embeddings of the JS string operations used) -/

/-- Whitespace as used by JS `trim` / `\s` on the outputs at hand. -/
def isWsChar (c : Char) : Bool :=
  c == ' ' || c == '\t' || c == '\n' || c == '\r'

/-- `isPrefixList p l` : the list `p` is a leading segment of `l`. -/
def isPrefixList : List Char → List Char → Bool
  | [], _ => true
  | _ :: _, [] => false
  | a :: as, b :: bs => a == b && isPrefixList as bs

/-- `listHasSub pat l` : `pat` occurs contiguously somewhere in `l`
(JS `String.includes`). -/
def listHasSub (pat : List Char) : List Char → Bool
  | [] => isPrefixList pat []
  | l@(_ :: t) => isPrefixList pat l || listHasSub pat t

/-- JS `s.includes(pat)`. -/
def strHasSub (s pat : String) : Bool := listHasSub pat.data s.data

/-- JS `s.toLowerCase()` (ASCII, which covers the probed outputs). -/
def lowerStr (s : String) : String := ⟨s.data.map Char.toLower⟩

/-- JS `s.trim()`. -/
def trimStr (s : String) : String :=
  ⟨((s.data.dropWhile isWsChar).reverse.dropWhile isWsChar).reverse⟩

mutual

/-- JS `s.split(/\s+/)`: accumulating a token (`cur` is reversed). -/
def splitWsAux (cur : List Char) : List Char → List String
  | [] => [String.mk cur.reverse]
  | c :: t =>
    if isWsChar c then String.mk cur.reverse :: splitWsSkip t
    else splitWsAux (c :: cur) t

/-- JS `s.split(/\s+/)`: inside a maximal whitespace separator run. -/
def splitWsSkip : List Char → List String
  | [] => [""]
  | c :: t => if isWsChar c then splitWsSkip t else splitWsAux [c] t

end

/-- JS `s.split(/\s+/)` (leading/trailing whitespace contributes an
empty piece, exactly as in JS). -/
def splitWs (s : String) : List String := splitWsAux [] s.data

/-- JS `s.split('\n')` (accumulator is reversed). -/
def splitLinesAux (cur : List Char) : List Char → List String
  | [] => [String.mk cur.reverse]
  | c :: t =>
    if c == '\n' then String.mk cur.reverse :: splitLinesAux [] t
    else splitLinesAux (c :: cur) t

/-- JS `s.split('\n')`. -/
def splitLines (s : String) : List String := splitLinesAux [] s.data

/-- Maximal run of leading decimal digits, and the rest. -/
def takeDigits : List Char → List Char × List Char
  | [] => ([], [])
  | c :: t =>
    if c.isDigit then
      let (d, r) := takeDigits t
      (c :: d, r)
    else ([], c :: t)

/-- Numeric value of a digit string. -/
def digitsToNat (l : List Char) : Nat :=
  l.foldl (fun a c => a * 10 + (c.toNat - 48)) 0

/-- JS `parseInt(s, 10)` on the inputs at hand: the leading digit run,
or `none` when there is none (JS would give `NaN`). -/
def parseNatTok (s : String) : Option Nat :=
  let (d, _) := takeDigits s.data
  if d.isEmpty then none else some (digitsToNat d)

/-- Greedy match of the regex `\d+\.\d+\.\d+` anchored at the start of the
list, returning the matched characters.  Since `\d+` is greedy and a
shorter digit run would leave a digit where a literal `.` is required,
JS backtracking never helps, so the maximal-run reading is exact. -/
def matchSemverAt (l : List Char) : Option (List Char) :=
  let (d1, r1) := takeDigits l
  if d1.isEmpty then none else
  match r1 with
  | '.' :: r2 =>
    let (d2, r3) := takeDigits r2
    if d2.isEmpty then none else
    match r3 with
    | '.' :: r4 =>
      let (d3, _) := takeDigits r4
      if d3.isEmpty then none else
      some (d1 ++ '.' :: (d2 ++ '.' :: d3))
    | _ => none
  | _ => none

/-- JS `s.match(/(\d+\.\d+\.\d+)/)` : the leftmost match. -/
def firstSemverList : List Char → Option (List Char)
  | [] => none
  | l@(_ :: t) =>
    match matchSemverAt l with
    | some m => some m
    | none => firstSemverList t

/-- JS `s.match(/(\d+\.\d+\.\d+)/)?.[1]`. -/
def firstSemverStr (s : String) : Option String :=
  (firstSemverList s.data).map String.mk

/-- JS `parseInt(v.split('.')[0], 10)` for a semver candidate `v`. -/
def majorOfStr (v : String) : Nat := digitsToNat (takeDigits v.data).1

/-! ## Data model -/

/-- `export type RuntimeType = 'docker' | 'podman'`. -/
inductive RuntimeType where
  | docker
  | podman
deriving DecidableEq, Repr

/-- The invocation name of a runtime, i.e. the string value of the
TypeScript union member. -/
def RuntimeType.name : RuntimeType → String
  | .docker => "docker"
  | .podman => "podman"

/-- `export interface ContainerRuntimeInfo`. -/
structure ContainerRuntimeInfo where
  type : RuntimeType
  version : String
  composeInstalled : Bool
  composeVersion : Option String
deriving DecidableEq, Repr

/-- The two static fields of `ContainerRuntime`
(`detectedRuntime`, `runtimeInfo`). -/
structure CacheState where
  detectedRuntime : Option RuntimeType
  runtimeInfo : Option ContainerRuntimeInfo
deriving DecidableEq, Repr

/-- The state produced by `ContainerRuntime.reset()`, which is also the
initial state of the class. -/
def resetState : CacheState := { detectedRuntime := none, runtimeInfo := none }

/-- The external world: `run c` is the outcome of `execAsync c`
(`some stdout` on success, `none` when the command throws); the
remaining fields are the file reads and the collaborator probe used by
the spec collector. -/
structure World where
  run : String → Option String
  memInfoFile : Option String
  cpuInfoFile : Option String
  devKvmExists : Bool
  freeRDP : Option String

/-- Result of one operation: returned value, cache state afterwards, and
the external commands issued (in order). -/
structure Res (α : Type) where
  val : α
  st : CacheState
  trace : List String
deriving Repr

/-! ## ContainerRuntime operations -/

/-- `ContainerRuntime.detectRuntime()`. -/
def detectRuntime (w : World) (s : CacheState) : Res (Option RuntimeType) :=
  match s.detectedRuntime with
  | some r => ⟨some r, s, []⟩
  | none =>
    match w.run "docker --version" with
    | some dockerVersion =>
      if strHasSub (lowerStr dockerVersion) "podman" then
        ⟨some .podman, { s with detectedRuntime := some .podman }, ["docker --version"]⟩
      else
        ⟨some .docker, { s with detectedRuntime := some .docker }, ["docker --version"]⟩
    | none =>
      match w.run "podman --version" with
      | some _ =>
        ⟨some .podman, { s with detectedRuntime := some .podman },
          ["docker --version", "podman --version"]⟩
      | none => ⟨none, s, ["docker --version", "podman --version"]⟩

/-- The compose sub-probe inside `getRuntimeInfo` (lines 84–96): given the
outcome of `execAsync(runtime + " compose version")`, the resulting
`(composeInstalled, composeVersion)` pair.  The `if (composeOutput)`
truthiness test of the source is the emptiness test. -/
def composeFlags (composeOut : Option String) : Bool × Option String :=
  match composeOut with
  | none => (false, none)
  | some composeOutput =>
    if composeOutput = "" then (false, none)
    else
      match firstSemverStr composeOutput with
      | some v => (decide (2 ≤ majorOfStr v), some v)
      | none => (false, none)

/-- The fresh-assembly path of `getRuntimeInfo` (lines 73–103), entered
when no cached info of the detected kind is available.  `st`/`tr` are the
state and trace after detection. -/
def freshInfo (w : World) (runtime : RuntimeType) (st : CacheState) (tr : List String) :
    Res (Option ContainerRuntimeInfo) :=
  match w.run (runtime.name ++ " --version") with
  | none => ⟨none, st, tr ++ [runtime.name ++ " --version"]⟩
  | some versionOutput =>
    let fl := composeFlags (w.run (runtime.name ++ " compose version"))
    let info : ContainerRuntimeInfo :=
      { type := runtime, version := trimStr versionOutput,
        composeInstalled := fl.1, composeVersion := fl.2 }
    ⟨some info, { st with runtimeInfo := some info },
      tr ++ [runtime.name ++ " --version", runtime.name ++ " compose version"]⟩

/-- `ContainerRuntime.getRuntimeInfo()`. -/
def getRuntimeInfo (w : World) (s : CacheState) : Res (Option ContainerRuntimeInfo) :=
  let d := detectRuntime w s
  match d.val with
  | none => ⟨none, d.st, d.trace⟩
  | some runtime =>
    match d.st.runtimeInfo with
    | some cached =>
      if cached.type = runtime then ⟨some cached, d.st, d.trace⟩
      else freshInfo w runtime d.st d.trace
    | none => freshInfo w runtime d.st d.trace

/-- `ContainerRuntime.getCommand()`. -/
def getCommand (w : World) (s : CacheState) : Res String :=
  let d := detectRuntime w s
  ⟨(match d.val with
    | some rt => rt.name
    | none => "docker"), d.st, d.trace⟩

/-- `command.replace(/^(docker|podman)/, runtime)`: both alternatives are
six characters long, and the regex is anchored, so the replacement
rewrites exactly the leading six characters when the template starts
with either name and is the identity otherwise. -/
def replaceLeadingRuntime (runtime command : String) : String :=
  if isPrefixList "docker".data command.data then runtime ++ ⟨command.data.drop 6⟩
  else if isPrefixList "podman".data command.data then runtime ++ ⟨command.data.drop 6⟩
  else command

/-- The `fullCommand` string built by `ContainerRuntime.execCommand`. -/
def execCommandString (w : World) (s : CacheState) (command : String) : String :=
  replaceLeadingRuntime (getCommand w s).val command

/-- `ContainerRuntime.execCommand(command)` (result is the stdout of the
rewritten command, `none` when it throws). -/
def execCommand (w : World) (s : CacheState) (command : String) : Res (Option String) :=
  let c := getCommand w s
  let fullCommand := replaceLeadingRuntime c.val command
  ⟨w.run fullCommand, c.st, c.trace ++ [fullCommand]⟩

/-- `ContainerRuntime.isRuntimeRunning()` (`!!stdout` is the emptiness
test; a thrown `ps` yields `false`). -/
def isRuntimeRunning (w : World) (s : CacheState) : Res Bool :=
  let c := getCommand w s
  ⟨(match w.run (c.val ++ " ps") with
    | some stdout => stdout != ""
    | none => false), c.st, c.trace ++ [c.val ++ " ps"]⟩

/-- `ContainerRuntime.isUserInRuntimeGroup()`. -/
def isUserInRuntimeGroup (w : World) (s : CacheState) : Res Bool :=
  let d := detectRuntime w s
  match d.val with
  | none => ⟨false, d.st, d.trace⟩
  | some .podman => ⟨true, d.st, d.trace⟩
  | some .docker =>
    ⟨(match w.run "id -Gn" with
      | some userGroups => (splitWs userGroups).contains "docker"
      | none => false), d.st, d.trace ++ ["id -Gn"]⟩

/-- `ContainerRuntime.requiresGroupMembership()`. -/
def requiresGroupMembership (w : World) (s : CacheState) : Res Bool :=
  let d := detectRuntime w s
  ⟨d.val == some .docker, d.st, d.trace⟩

/-- `ContainerRuntime.getNetworkMode()` (the `info?.version &&
info.version.includes('4.4')` truthiness chain). -/
def getNetworkMode (w : World) (s : CacheState) : Res (Option String) :=
  let d := detectRuntime w s
  match d.val with
  | some .podman =>
    let r := getRuntimeInfo w d.st
    ⟨(match r.val with
      | some info =>
        if info.version != "" && strHasSub info.version "4.4" then some "pasta"
        else some "slirp4netns"
      | none => some "slirp4netns"), r.st, d.trace ++ r.trace⟩
  | _ => ⟨none, d.st, d.trace⟩

/-! ## Host readiness collector (`specs.ts`) -/

/-- `export type MemoryInfo` (gigabyte values are exact rationals here;
the JS numbers are rounded to two decimals, which the model reproduces
with `jsRound`). -/
structure MemoryInfo where
  totalGB : ℚ
  availableGB : ℚ
deriving DecidableEq, Repr

/-- JS `Math.round`. -/
def jsRound (q : ℚ) : ℤ := ⌊q + 1 / 2⌋

/-- `Math.round(parseInt(line.split(/\s+/)[1]) / 1024 / 1024 * 100) / 100`
for one `/proc/meminfo` line; `none` when the line has no parsable
second token (the JS value would be `NaN`, which every later comparison
treats like a failed probe). -/
def kbLineToGB (line : String) : Option ℚ :=
  match (splitWs line).get? 1 with
  | some tok =>
    match parseNatTok tok with
    | some kb => some ((jsRound ((kb : ℚ) / 1024 / 1024 * 100) : ℚ) / 100)
    | none => none
  | none => none

/-- `getMemoryInfo()`: the only collector that re-throws, namely exactly
when the `/proc/meminfo` read fails (`Except.error ()`). -/
def getMemoryInfo (memFile : Option String) : Except Unit MemoryInfo :=
  match memFile with
  | none => Except.error ()
  | some memInfo =>
    let lines := splitLines memInfo
    let totalMemLine := lines.find? fun line => isPrefixList "MemTotal".data line.data
    let availableMemLine := lines.find? fun line => isPrefixList "MemAvailable".data line.data
    Except.ok
      { totalGB := (totalMemLine.bind kbLineToGB).getD 0,
        availableGB := (availableMemLine.bind kbLineToGB).getD 0 }

/-- The `Specs` record consumed by `satisfiesPrequisites` (field order as
in `defaultSpecs`). -/
structure Specs where
  cpuCores : Nat
  ramGB : ℚ
  kvmEnabled : Bool
  dockerInstalled : Bool
  dockerComposeInstalled : Bool
  dockerIsRunning : Bool
  dockerIsInUserGroups : Bool
  freeRDP3Installed : Bool
  ipTablesLoaded : Bool
  iptableNatLoaded : Bool
deriving DecidableEq, Repr

/-- `export const defaultSpecs`. -/
def defaultSpecs : Specs :=
  { cpuCores := 0, ramGB := 0, kvmEnabled := false, dockerInstalled := false,
    dockerComposeInstalled := false, dockerIsRunning := false,
    dockerIsInUserGroups := false, freeRDP3Installed := false,
    ipTablesLoaded := false, iptableNatLoaded := false }

/-- `satisfiesPrequisites(specs)` (it consults
`ContainerRuntime.requiresGroupMembership`, hence the world and cache). -/
def satisfiesPrequisites (w : World) (s : CacheState) (specs : Specs) : Res Bool :=
  let rq := requiresGroupMembership w s
  let groupCheckPassed := if rq.val then specs.dockerIsInUserGroups else true
  ⟨specs.dockerInstalled && specs.dockerComposeInstalled && specs.dockerIsRunning &&
     groupCheckPassed && specs.freeRDP3Installed && specs.ipTablesLoaded &&
     specs.iptableNatLoaded && specs.kvmEnabled &&
     decide (4 ≤ specs.ramGB) && decide (2 ≤ specs.cpuCores),
   rq.st, rq.trace⟩

/-- The physical-core-count pipeline of `getSpecs`. -/
def lscpuCmd : String := "lscpu -p | egrep -v \"^#\" | sort -u -t, -k 2,4 | wc -l"

/-- The `ip_tables` module probe of `getSpecs`. -/
def ipTablesCmd : String := "lsmod | grep ip_tables"

/-- The `iptable_nat` module probe of `getSpecs`. -/
def iptableNatCmd : String := "lsmod | grep iptable_nat"

/-- CPU-core probe (`parseInt` of a failed or unparsable pipeline keeps
the default `0`; in JS an unparsable output gives `NaN`, which behaves
like `0` in every comparison made of it). -/
def cpuCoresProbe (w : World) : Nat :=
  match w.run lscpuCmd with
  | some res => (parseNatTok (trimStr res)).getD 0
  | none => 0

/-- RAM probe: `getMemoryInfo().totalGB`, defaulting on the re-thrown
read failure (the catch block of `getSpecs`). -/
def ramGBProbe (w : World) : ℚ :=
  match getMemoryInfo w.memInfoFile with
  | Except.ok m => m.totalGB
  | Except.error _ => 0

/-- KVM probe: `vmx`/`svm` flag in `/proc/cpuinfo` plus `/dev/kvm`. -/
def kvmProbe (w : World) : Bool :=
  match w.cpuInfoFile with
  | some cpuInfo => (strHasSub cpuInfo "vmx" || strHasSub cpuInfo "svm") && w.devKvmExists
  | none => false

/-- FreeRDP probe: `!!(await getFreeRDP())`, `false` when the locator
throws or yields nothing. -/
def freeRDPProbe (w : World) : Bool :=
  match w.freeRDP with
  | some p => p != ""
  | none => false

/-- Kernel-module probe: `!!stdout.trim()` of an `lsmod | grep` pipeline,
`false` when it exits non-zero. -/
def lsmodProbe (w : World) (cmd : String) : Bool :=
  match w.run cmd with
  | some stdout => trimStr stdout != ""
  | none => false

/-- `getSpecs()`: every probe is wrapped in its own `try`/`catch`, so the
result is a total record; the container-runtime probes thread the shared
cache in source order. -/
def getSpecs (w : World) (s : CacheState) : Specs × CacheState :=
  let d := detectRuntime w s
  let r := getRuntimeInfo w d.st
  let running := isRuntimeRunning w r.st
  let grp := isUserInRuntimeGroup w running.st
  (⟨cpuCoresProbe w, ramGBProbe w, kvmProbe w, d.val.isSome,
     (match r.val with
      | some runtimeInfo => runtimeInfo.composeInstalled
      | none => false),
     running.val, grp.val, freeRDPProbe w,
     lsmodProbe w ipTablesCmd, lsmodProbe w iptableNatCmd⟩, grp.st)

/-! ## Basic facts about detection -/

lemma detect_st_runtimeInfo (w : World) (s : CacheState) :
    (detectRuntime w s).st.runtimeInfo = s.runtimeInfo := by
  unfold detectRuntime
  split
  · rfl
  · split
    · split <;> rfl
    · split <;> rfl

lemma detect_val_st (w : World) (s : CacheState) :
    ∀ rt, (detectRuntime w s).val = some rt →
      (detectRuntime w s).st.detectedRuntime = some rt := by
  unfold detectRuntime
  split
  · intro rt h
    simp only at h
    rename_i r heq
    simpa [← h] using heq
  · split
    · split <;> (intro rt h; simp only at h; simp [← h])
    · split
      · intro rt h
        simp only at h
        simp [← h]
      · intro rt h
        simp at h

lemma detect_cached (w : World) (s : CacheState) (rt : RuntimeType)
    (h : s.detectedRuntime = some rt) :
    detectRuntime w s = ⟨some rt, s, []⟩ := by
  simp [detectRuntime, h]

/-! ## Concrete worlds used as witnesses and counterexamples -/

/-- A host with a genuine Docker binary and nothing else. -/
def wDockerHost : World :=
  { run := fun c => if c = "docker --version" then some "Docker version 27.3.1, build ce12230" else none,
    memInfoFile := none, cpuInfoFile := none, devKvmExists := false, freeRDP := none }

/-- A host whose `docker` binary is the podman-docker wrapper. -/
def wPodmanShim : World :=
  { run := fun c => if c = "docker --version" then some "podman version 4.9.3" else none,
    memInfoFile := none, cpuInfoFile := none, devKvmExists := false, freeRDP := none }

/-- A host where every probe fails. -/
def wNone : World :=
  { run := fun _ => none, memInfoFile := none, cpuInfoFile := none,
    devKvmExists := false, freeRDP := none }

/-! ## C1 — disambiguation of the `docker --version` output -/

/-- C1: on a fresh cache, when `docker --version` succeeds, its output
mentioning "podman" (case-insensitively, as the source lower-cases the
output first) forces detection to return `podman` — never `docker` —
and an output not mentioning it forces `docker`. -/
theorem C1_detect_disambiguation (w : World) (s : CacheState) (out : String)
    (hs : s.detectedRuntime = none)
    (hd : w.run "docker --version" = some out) :
    (strHasSub (lowerStr out) "podman" = true →
       (detectRuntime w s).val = some RuntimeType.podman)
  ∧ (strHasSub (lowerStr out) "podman" = false →
       (detectRuntime w s).val = some RuntimeType.docker) := by
  constructor <;> intro hp <;> simp [detectRuntime, hs, hd, hp]

/-- C1 witness: the podman-docker wrapper host is classified as podman. -/
theorem C1_witness :
    (detectRuntime wPodmanShim resetState).val = some RuntimeType.podman :=
  (C1_detect_disambiguation wPodmanShim resetState "podman version 4.9.3" rfl rfl).1 rfl

/-! ## C2 — idempotence of detection -/

/-- C2 (amended): once a detection call has succeeded with some engine
kind, any later call without an intervening reset — under any world —
returns the identical kind, issues no external command, and leaves the
cache unchanged. -/
theorem C2_detect_idempotent (w w' : World) (s : CacheState) (rt : RuntimeType)
    (h : (detectRuntime w s).val = some rt) :
    (detectRuntime w' (detectRuntime w s).st).val = some rt
  ∧ (detectRuntime w' (detectRuntime w s).st).trace = []
  ∧ (detectRuntime w' (detectRuntime w s).st).st = (detectRuntime w s).st := by
  have hst := detect_val_st w s rt h
  refine ⟨?_, ?_, ?_⟩ <;> simp [detect_cached w' _ rt hst]

/-- C2 witness: on the concrete Docker host, the second detection call is
served from the cache. -/
theorem C2_witness :
    (detectRuntime wDockerHost (detectRuntime wDockerHost resetState).st).val
        = some RuntimeType.docker
  ∧ (detectRuntime wDockerHost (detectRuntime wDockerHost resetState).st).trace = []
  ∧ (detectRuntime wDockerHost (detectRuntime wDockerHost resetState).st).st
        = (detectRuntime wDockerHost resetState).st :=
  C2_detect_idempotent wDockerHost wDockerHost resetState RuntimeType.docker rfl

/-- C2 counterexample: when no engine is found, nothing is cached, so the
second detection call issues probe commands again — the claim's
"issues no further external probe commands" fails for this pair of
calls. -/
theorem C2_counterexample :
    (detectRuntime wNone resetState).val = none
  ∧ (detectRuntime wNone (detectRuntime wNone resetState).st).trace ≠ [] :=
  ⟨rfl, by decide⟩

/-! ## C3 — cache coherence invariant -/

/-- The coherence property of the two static fields: a cached info entry
always carries the cached kind. -/
def CacheInv (s : CacheState) : Prop :=
  ∀ i, s.runtimeInfo = some i → s.detectedRuntime = some i.type

lemma inv_detect (w : World) (s : CacheState) (h : CacheInv s) :
    CacheInv (detectRuntime w s).st := by
  intro i hi
  rw [detect_st_runtimeInfo] at hi
  have hk := h i hi
  rw [detect_cached w s i.type hk]
  exact hk

lemma freshInfo_val_type (w : World) (rt : RuntimeType) (st : CacheState)
    (tr : List String) (i : ContainerRuntimeInfo)
    (h : (freshInfo w rt st tr).val = some i) : i.type = rt := by
  unfold freshInfo at h
  cases hr : w.run (rt.name ++ " --version") with
  | none => simp [hr] at h
  | some out =>
    simp [hr] at h
    rw [← h]

lemma freshInfo_fail (w : World) (rt : RuntimeType)
    (st : CacheState) (tr : List String)
    (h : w.run (rt.name ++ " --version") = none) :
    (freshInfo w rt st tr).val = none ∧ (freshInfo w rt st tr).st = st := by
  unfold freshInfo
  simp [h]

lemma inv_freshInfo (w : World) (rt : RuntimeType) (st : CacheState)
    (tr : List String) (hst : st.detectedRuntime = some rt) (h : CacheInv st) :
    CacheInv (freshInfo w rt st tr).st := by
  unfold freshInfo
  cases hr : w.run (rt.name ++ " --version") with
  | none => simpa using h
  | some out =>
    intro i hi
    simp at hi
    simp [← hi, hst]

lemma inv_info (w : World) (s : CacheState) (h : CacheInv s) :
    CacheInv (getRuntimeInfo w s).st := by
  have hd := inv_detect w s h
  unfold getRuntimeInfo
  cases hv : (detectRuntime w s).val with
  | none => simpa [hv] using hd
  | some rt =>
    have hst := detect_val_st w s rt hv
    cases hi : (detectRuntime w s).st.runtimeInfo with
    | some cached =>
      by_cases hc : cached.type = rt
      · simpa [hv, hi, hc] using hd
      · simp only [hv, hi, if_neg hc]
        exact inv_freshInfo w rt _ _ hst hd
    | none =>
      simp only [hv, hi]
      exact inv_freshInfo w rt _ _ hst hd

lemma running_st (w : World) (s : CacheState) :
    (isRuntimeRunning w s).st = (detectRuntime w s).st := rfl

lemma group_st (w : World) (s : CacheState) :
    (isUserInRuntimeGroup w s).st = (detectRuntime w s).st := by
  unfold isUserInRuntimeGroup
  cases hv : (detectRuntime w s).val with
  | none => simp [hv]
  | some rt => cases rt <;> simp [hv]

/-- The states the shared cache can be in, starting from the initial
(equivalently, freshly reset) state and applying any public operation of
the class under any world. -/
inductive Reachable : CacheState → Prop where
  | init : Reachable resetState
  | detect (w : World) (s : CacheState) : Reachable s → Reachable (detectRuntime w s).st
  | info (w : World) (s : CacheState) : Reachable s → Reachable (getRuntimeInfo w s).st
  | command (w : World) (s : CacheState) : Reachable s → Reachable (getCommand w s).st
  | exec (w : World) (s : CacheState) (c : String) :
      Reachable s → Reachable (execCommand w s c).st
  | running (w : World) (s : CacheState) : Reachable s → Reachable (isRuntimeRunning w s).st
  | group (w : World) (s : CacheState) :
      Reachable s → Reachable (isUserInRuntimeGroup w s).st
  | requiresGroup (w : World) (s : CacheState) :
      Reachable s → Reachable (requiresGroupMembership w s).st
  | networkMode (w : World) (s : CacheState) :
      Reachable s → Reachable (getNetworkMode w s).st
  | satisfies (w : World) (s : CacheState) (sp : Specs) :
      Reachable s → Reachable (satisfiesPrequisites w s sp).st
  | specsStep (w : World) (s : CacheState) : Reachable s → Reachable (getSpecs w s).2
  | reset (s : CacheState) : Reachable s → Reachable resetState

lemma reachable_inv : ∀ s, Reachable s → CacheInv s := by
  intro s h
  induction h with
  | init => intro i hi; simp [resetState] at hi
  | detect w s _ ih => exact inv_detect w s ih
  | info w s _ ih => exact inv_info w s ih
  | command w s _ ih => exact inv_detect w s ih
  | exec w s c _ ih => exact inv_detect w s ih
  | running w s _ ih =>
    rw [running_st]
    exact inv_detect w s ih
  | group w s _ ih =>
    rw [group_st]
    exact inv_detect w s ih
  | requiresGroup w s _ ih => exact inv_detect w s ih
  | networkMode w s _ ih =>
    unfold getNetworkMode
    cases hv : (detectRuntime w s).val with
    | none => simpa [hv] using inv_detect w s ih
    | some rt =>
      cases rt with
      | docker => simpa [hv] using inv_detect w s ih
      | podman =>
        simp only [hv]
        exact inv_info w _ (inv_detect w s ih)
  | satisfies w s sp _ ih => exact inv_detect w s ih
  | specsStep w s _ ih =>
    have h2 := inv_info w _ (inv_detect w s ih)
    have h3 : CacheInv (isRuntimeRunning w (getRuntimeInfo w (detectRuntime w s).st).st).st := by
      rw [running_st]
      exact inv_detect w _ h2
    have h4 : CacheInv (isUserInRuntimeGroup w
        (isRuntimeRunning w (getRuntimeInfo w (detectRuntime w s).st).st).st).st := by
      rw [group_st]
      exact inv_detect w _ h3
    exact h4
  | reset s _ _ => intro i hi; simp [resetState] at hi

/-- C3: in every reachable cache state, a cached kind and a cached info
that are both present agree on the kind; `reset()` clears both; and an
info returned by `getRuntimeInfo` always carries the kind detection
resolved — a stale entry whose kind disagrees is never served. -/
theorem C3_cache_invariant :
    (∀ s, Reachable s → ∀ k i, s.detectedRuntime = some k →
        s.runtimeInfo = some i → i.type = k)
  ∧ (resetState.detectedRuntime = none ∧ resetState.runtimeInfo = none)
  ∧ (∀ w s i, (getRuntimeInfo w s).val = some i →
        (detectRuntime w s).val = some i.type) := by
  refine ⟨?_, ⟨rfl, rfl⟩, ?_⟩
  · intro s hs k i hk hi
    have h := reachable_inv s hs i hi
    rw [hk] at h
    exact (Option.some.inj h).symm
  · intro w s i h
    unfold getRuntimeInfo at h
    cases hv : (detectRuntime w s).val with
    | none => simp [hv] at h
    | some rt =>
      cases hi : (detectRuntime w s).st.runtimeInfo with
      | some cached =>
        by_cases hc : cached.type = rt
        · simp [hv, hi, hc] at h
          rw [← h, hc]
        · simp only [hv, hi, if_neg hc] at h
          rw [freshInfo_val_type w rt _ _ i h]
      | none =>
        simp only [hv, hi] at h
        rw [freshInfo_val_type w rt _ _ i h]

/-- A full podman host (via the podman-docker wrapper) whose compose
plugin reports an incompatible 1.x version. -/
def wPodmanHost : World :=
  { run := fun c =>
      if c = "docker --version" then some "podman version 4.4.1"
      else if c = "podman --version" then some "podman version 4.4.1"
      else if c = "podman compose version" then some "podman-compose version 1.0.6"
      else if c = "id -Gn" then some "wheel users"
      else none,
    memInfoFile := none, cpuInfoFile := none, devKvmExists := false, freeRDP := none }

/-- The info `getRuntimeInfo` assembles on `wPodmanHost`. -/
def infoPodmanHost : ContainerRuntimeInfo :=
  { type := RuntimeType.podman, version := "podman version 4.4.1",
    composeInstalled := false, composeVersion := some "1.0.6" }

/-- C3 witness: the cache state reached on the podman host by one
detection and one info probe satisfies the invariant at its concrete
cached values. -/
theorem C3_witness : infoPodmanHost.type = RuntimeType.podman :=
  C3_cache_invariant.1 _
    (Reachable.info wPodmanHost _ (Reachable.detect wPodmanHost _ Reachable.init))
    RuntimeType.podman infoPodmanHost rfl rfl

/-! ## C4 — compose version gating -/

/-- Follows the spec's words, for comparison with the code: "the output
contains a match of the pattern `\d+\.\d+\.\d+` whose major component is
≥ 2" — i.e. at *some* position of the text the pattern matches and that
match's major part is at least 2. -/
def anyMatchGE2 : List Char → Bool
  | [] => false
  | l@(_ :: t) =>
    (match matchSemverAt l with
     | some m => decide (2 ≤ digitsToNat (takeDigits m).1)
     | none => false) || anyMatchGE2 t

/-- Follows the spec's words (see `anyMatchGE2`). -/
def specContainsMatchGE2 (s : String) : Bool := anyMatchGE2 s.data

/-- Compose-probe output whose first `\d+\.\d+\.\d+` match has major 1
although a later match has major 3. -/
def wComposeTwoMatches : World :=
  { run := fun c =>
      if c = "docker --version" then some "Docker version 24.0.7"
      else if c = "docker compose version" then some "1.0.0 3.0.0"
      else none,
    memInfoFile := none, cpuInfoFile := none, devKvmExists := false, freeRDP := none }

/-- The info `getRuntimeInfo` assembles on `wComposeTwoMatches`. -/
def infoComposeTwoMatches : ContainerRuntimeInfo :=
  { type := RuntimeType.docker, version := "Docker version 24.0.7",
    composeInstalled := false, composeVersion := some "1.0.0" }

/-- C4 counterexample: the output `"1.0.0 3.0.0"` contains a match of
`\d+\.\d+\.\d+` with major ≥ 2, yet the code — which gates on the *first*
match only — reports the compose capability as absent. -/
theorem C4_counterexample :
    specContainsMatchGE2 "1.0.0 3.0.0" = true
  ∧ (getRuntimeInfo wComposeTwoMatches resetState).val = some infoComposeTwoMatches
  ∧ infoComposeTwoMatches.composeInstalled = false :=
  ⟨rfl, rfl, rfl⟩

/-- C4 (amended): the compose capability is `true` iff the *first*
(leftmost) match of `\d+\.\d+\.\d+` in the compose-probe output has
major component ≥ 2; `"Docker Compose version v2.5.1"` yields
`(true, "2.5.1")` and `"1.29.0"` yields `(false, "1.29.0")`; a failed
sub-probe yields `composeInstalled = false`, and `getRuntimeInfo` still
assembles and returns the full info record (the sub-probe failure does
not abort the overall probe). -/
theorem C4_compose_gating :
    (∀ out, (composeFlags (some out)).1 =
        (match firstSemverStr out with
         | some v => decide (2 ≤ majorOfStr v)
         | none => false))
  ∧ composeFlags none = (false, none)
  ∧ composeFlags (some "Docker Compose version v2.5.1") = (true, some "2.5.1")
  ∧ composeFlags (some "1.29.0") = (false, some "1.29.0")
  ∧ (∀ w s rt vOut, (detectRuntime w s).val = some rt →
        (∀ i, s.runtimeInfo = some i → i.type ≠ rt) →
        w.run (rt.name ++ " --version") = some vOut →
        (getRuntimeInfo w s).val = some
          { type := rt, version := trimStr vOut,
            composeInstalled := (composeFlags (w.run (rt.name ++ " compose version"))).1,
            composeVersion := (composeFlags (w.run (rt.name ++ " compose version"))).2 }) := by
  refine ⟨?_, rfl, rfl, rfl, ?_⟩
  · intro out
    by_cases hout : out = ""
    · subst hout
      rfl
    · simp only [composeFlags, if_neg hout]
      cases h : firstSemverStr out <;> simp [h]
  · intro w s rt vOut hdet hmis hver
    unfold getRuntimeInfo
    simp only [hdet]
    cases hi : (detectRuntime w s).st.runtimeInfo with
    | none =>
      unfold freshInfo
      simp [hver]
    | some cached =>
      have hne : cached.type ≠ rt := by
        refine hmis cached ?_
        rw [← detect_st_runtimeInfo w s]
        exact hi
      simp only [if_neg hne]
      unfold freshInfo
      simp [hver]

/-- C4 witness: the amended gating applied to the concrete podman host
whose compose plugin reports 1.0.6. -/
theorem C4_witness :
    (getRuntimeInfo wPodmanHost resetState).val = some
      { type := RuntimeType.podman, version := trimStr "podman version 4.4.1",
        composeInstalled := (composeFlags (wPodmanHost.run "podman compose version")).1,
        composeVersion := (composeFlags (wPodmanHost.run "podman compose version")).2 } :=
  C4_compose_gating.2.2.2.2 wPodmanHost resetState RuntimeType.podman
    "podman version 4.4.1" rfl (fun _ h => nomatch h) rfl

/-! ## C5 — access-control check -/

/-- C5: the group check is unconditionally satisfied for podman; for
docker it holds exactly when the token `docker` occurs in the
whitespace-split output of `id -Gn`, and a failing `id -Gn` yields
`false`. -/
theorem C5_group_check (w : World) (s : CacheState) :
    ((detectRuntime w s).val = some RuntimeType.podman →
        (isUserInRuntimeGroup w s).val = true)
  ∧ (∀ out, (detectRuntime w s).val = some RuntimeType.docker →
        w.run "id -Gn" = some out →
        ((isUserInRuntimeGroup w s).val = true ↔ "docker" ∈ splitWs out))
  ∧ ((detectRuntime w s).val = some RuntimeType.docker →
        w.run "id -Gn" = none → (isUserInRuntimeGroup w s).val = false) := by
  refine ⟨?_, ?_, ?_⟩
  · intro h
    simp [isUserInRuntimeGroup, h]
  · intro out h hgn
    simp only [isUserInRuntimeGroup, h, hgn]
    exact List.elem_iff
  · intro h hgn
    simp [isUserInRuntimeGroup, h, hgn]

/-- A Docker host whose user belongs to the `docker` group. -/
def wDockerGroups : World :=
  { run := fun c =>
      if c = "docker --version" then some "Docker version 26.1.4, build 5650f9b"
      else if c = "id -Gn" then some "adm wheel docker libvirt"
      else none,
    memInfoFile := none, cpuInfoFile := none, devKvmExists := false, freeRDP := none }

/-- C5 witness: on the concrete Docker host the group check succeeds
because `docker` is among the listed groups. -/
theorem C5_witness : (isUserInRuntimeGroup wDockerGroups resetState).val = true :=
  ((C5_group_check wDockerGroups resetState).2.1 "adm wheel docker libvirt" rfl rfl).2
    (by decide)

/-! ## C6 — network-mode selection -/

lemma freshInfo_val_tr (w : World) (rt : RuntimeType) (st : CacheState)
    (tr tr' : List String) :
    (freshInfo w rt st tr).val = (freshInfo w rt st tr').val := by
  unfold freshInfo
  cases w.run (rt.name ++ " --version") <;> rfl

lemma detect_none_st (w : World) (s : CacheState)
    (h : (detectRuntime w s).val = none) : (detectRuntime w s).st = s := by
  unfold detectRuntime at h ⊢
  cases hs : s.detectedRuntime with
  | some r => simp [hs] at h
  | none =>
    cases hd : w.run "docker --version" with
    | some out =>
      simp only [hs, hd] at h
      split at h <;> simp at h
    | none =>
      cases hp : w.run "podman --version" with
      | some out => simp [hs, hd, hp] at h
      | none => simp [hs, hd, hp]

/-- The value of the info probe is unchanged by running detection first:
`getNetworkMode`'s internal `getRuntimeInfo` call (made on the
post-detection state) sees exactly what a direct call would see. -/
lemma info_val_after_detect (w : World) (s : CacheState) :
    (getRuntimeInfo w (detectRuntime w s).st).val = (getRuntimeInfo w s).val := by
  cases hv : (detectRuntime w s).val with
  | none => rw [detect_none_st w s hv]
  | some rt =>
    have hst := detect_val_st w s rt hv
    unfold getRuntimeInfo
    rw [detect_cached w _ rt hst]
    simp only [hv]
    cases hri : (detectRuntime w s).st.runtimeInfo with
    | none =>
      simp only [hri]
      exact freshInfo_val_tr w rt _ _ _
    | some cached =>
      simp only [hri]
      by_cases hc : cached.type = rt
      · simp [hc]
      · simp only [if_neg hc]
        exact freshInfo_val_tr w rt _ _ _

lemma ne_empty_and_hasSub (v : String) :
    (v != "" && strHasSub v "4.4") = strHasSub v "4.4" := by
  by_cases h : v = ""
  · subst h
    rfl
  · have hne : (v != "") = true := by simp [h]
    rw [hne, Bool.true_and]

/-- C6: with podman detected, the network mode is `pasta` exactly when
the probed info's version string contains `"4.4"`, `slirp4netns` for any
other version string and when the info probe fails; with docker
detected, no network mode is returned. -/
theorem C6_network_mode (w : World) (s : CacheState) :
    ((detectRuntime w s).val = some RuntimeType.podman →
        (getNetworkMode w s).val = some
          (match (getRuntimeInfo w s).val with
           | some info => if strHasSub info.version "4.4" then "pasta" else "slirp4netns"
           | none => "slirp4netns"))
  ∧ ((detectRuntime w s).val = some RuntimeType.docker →
        (getNetworkMode w s).val = none) := by
  constructor
  · intro h
    unfold getNetworkMode
    simp only [h]
    rw [← info_val_after_detect w s]
    cases hr : (getRuntimeInfo w (detectRuntime w s).st).val with
    | none => simp [hr]
    | some info =>
      simp only [hr, ne_empty_and_hasSub]
      split <;> rfl
  · intro h
    unfold getNetworkMode
    simp [h]

/-- C6 witness: the podman 4.4.1 host gets the `pasta` backend. -/
theorem C6_witness : (getNetworkMode wPodmanHost resetState).val = some "pasta" := by
  have h := (C6_network_mode wPodmanHost resetState).1 rfl
  exact h

/-! ## C7 — command rewriting -/

lemma isPrefixList_append (p t : List Char) : isPrefixList p (p ++ t) = true := by
  induction p with
  | nil => rfl
  | cons a as ih => simp [isPrefixList, ih]

/-- C7: `execCommand` rewrites exactly a leading `docker`/`podman` token
of the template to the resolved invocation name — which is `docker` when
nothing was detected — and a template starting with neither name is
passed through verbatim; every character after the leading token is
preserved unchanged. -/
theorem C7_command_rewrite (w : World) (s : CacheState) :
    (∀ rest : String,
        execCommandString w s ("docker" ++ rest) = (getCommand w s).val ++ rest)
  ∧ (∀ rest : String,
        execCommandString w s ("podman" ++ rest) = (getCommand w s).val ++ rest)
  ∧ (∀ cmd : String, isPrefixList "docker".data cmd.data = false →
        isPrefixList "podman".data cmd.data = false →
        execCommandString w s cmd = cmd)
  ∧ ((detectRuntime w s).val = none → (getCommand w s).val = "docker") := by
  refine ⟨?_, ?_, ?_, ?_⟩
  · intro rest
    unfold execCommandString replaceLeadingRuntime
    have h1 : ("docker" ++ rest).data = "docker".data ++ rest.data := rfl
    have h2 : ("docker".data ++ rest.data).drop 6 = rest.data :=
      List.drop_left "docker".data rest.data
    simp only [h1, isPrefixList_append, if_true, h2]
  · intro rest
    unfold execCommandString replaceLeadingRuntime
    have h1 : ("podman" ++ rest).data = "podman".data ++ rest.data := rfl
    have h2 : ("podman".data ++ rest.data).drop 6 = rest.data :=
      List.drop_left "podman".data rest.data
    simp only [h1, isPrefixList_append, if_true, h2, ite_self]
  · intro cmd hd hp
    unfold execCommandString replaceLeadingRuntime
    simp [hd, hp]
  · intro h
    simp [getCommand, h]

/-- C7 witness: on the podman host, only the leading `docker` token is
rewritten (a later `docker.io` occurrence is untouched), and a template
with no leading engine name is unchanged. -/
theorem C7_witness :
    execCommandString wPodmanHost resetState "docker run -v data:/d docker.io/library/img"
        = "podman run -v data:/d docker.io/library/img"
  ∧ execCommandString wPodmanHost resetState "systemctl restart docker"
        = "systemctl restart docker" :=
  ⟨(C7_command_rewrite wPodmanHost resetState).1 " run -v data:/d docker.io/library/img",
   (C7_command_rewrite wPodmanHost resetState).2.2.1 "systemctl restart docker" rfl rfl⟩

/-! ## C8 — readiness predicate -/

/-- The claim's concrete input: every signal satisfied and thresholds met
exactly, except membership in the runtime group. -/
def specsGroupMissing : Specs :=
  { cpuCores := 2, ramGB := 4, kvmEnabled := true, dockerInstalled := true,
    dockerComposeInstalled := true, dockerIsRunning := true,
    dockerIsInUserGroups := false, freeRDP3Installed := true,
    ipTablesLoaded := true, iptableNatLoaded := true }

/-- The same input with the group membership flipped to true. -/
def specsGroupOk : Specs := { specsGroupMissing with dockerIsInUserGroups := true }

/-- C8: the readiness verdict is the pure conjunction of all boolean
signals, the thresholds `ramGB ≥ 4` and `cpuCores ≥ 2`, and the group
gate applied exactly when docker was detected; on a docker host the
claim's concrete input fails, and flipping the group flag makes it
pass. -/
theorem C8_readiness :
    (∀ (w : World) (s : CacheState) (sp : Specs),
        (satisfiesPrequisites w s sp).val =
          (sp.dockerInstalled && sp.dockerComposeInstalled && sp.dockerIsRunning &&
           (if (detectRuntime w s).val = some RuntimeType.docker then
              sp.dockerIsInUserGroups
            else true) &&
           sp.freeRDP3Installed && sp.ipTablesLoaded && sp.iptableNatLoaded &&
           sp.kvmEnabled && decide (4 ≤ sp.ramGB) && decide (2 ≤ sp.cpuCores)))
  ∧ (satisfiesPrequisites wDockerHost resetState specsGroupMissing).val = false
  ∧ (satisfiesPrequisites wDockerHost resetState specsGroupOk).val = true := by
  refine ⟨?_, rfl, rfl⟩
  intro w s sp
  unfold satisfiesPrequisites requiresGroupMembership
  by_cases h : (detectRuntime w s).val = some RuntimeType.docker
  · simp [h]
  · simp [h, beq_false_of_ne h]

/-! ## C10 — probe atomicity of getRuntimeInfo -/

/-- C10: when fresh info is being assembled (no usable cached info) and
the engine's version command fails, `getRuntimeInfo` returns `none` and
the cached info field is left exactly as it was — the partially built
record is neither returned nor cached. -/
theorem C10_probe_atomicity (w : World) (s : CacheState) (rt : RuntimeType)
    (hdet : (detectRuntime w s).val = some rt)
    (hfresh : ∀ i, s.runtimeInfo = some i → i.type ≠ rt)
    (hver : w.run (rt.name ++ " --version") = none) :
    (getRuntimeInfo w s).val = none
  ∧ (getRuntimeInfo w s).st.runtimeInfo = s.runtimeInfo := by
  unfold getRuntimeInfo
  simp only [hdet]
  cases hi : (detectRuntime w s).st.runtimeInfo with
  | none =>
    have hf := freshInfo_fail w rt (detectRuntime w s).st (detectRuntime w s).trace hver
    refine ⟨hf.1, ?_⟩
    rw [hf.2, detect_st_runtimeInfo]
  | some cached =>
    have hne : cached.type ≠ rt := by
      refine hfresh cached ?_
      rw [← detect_st_runtimeInfo w s]
      exact hi
    simp only [if_neg hne]
    have hf := freshInfo_fail w rt (detectRuntime w s).st (detectRuntime w s).trace hver
    refine ⟨hf.1, ?_⟩
    rw [hf.2, detect_st_runtimeInfo]

/-- C10 witness: on the wrapper-only host (where `docker --version`
reports podman but `podman --version` itself fails), `getRuntimeInfo`
returns `none` and caches nothing. -/
theorem C10_witness :
    (getRuntimeInfo wPodmanShim resetState).val = none
  ∧ (getRuntimeInfo wPodmanShim resetState).st.runtimeInfo = resetState.runtimeInfo :=
  C10_probe_atomicity wPodmanShim resetState RuntimeType.podman rfl
    (fun _ h => nomatch h) rfl

/-! ## C9 — fault isolation of the readiness collector

A single probe is made to fail by modifying the world at exactly that
probe's input; the collector's output must change in exactly the
corresponding field, which falls back to its default. -/

/-- `w` with the single external command `bad` failing. -/
def failCmd (w : World) (bad : String) : World :=
  { w with run := fun c => if c = bad then none else w.run c }

/-- `w` with the `/proc/meminfo` read failing. -/
def failMem (w : World) : World := { w with memInfoFile := none }

/-- `w` with the `/proc/cpuinfo` read failing. -/
def failCpuInfo (w : World) : World := { w with cpuInfoFile := none }

/-- `w` with the FreeRDP locator failing. -/
def failFreeRDP (w : World) : World := { w with freeRDP := none }

lemma detect_congr (w w' : World) (s : CacheState)
    (h1 : w.run "docker --version" = w'.run "docker --version")
    (h2 : w.run "podman --version" = w'.run "podman --version") :
    detectRuntime w s = detectRuntime w' s := by
  unfold detectRuntime
  rw [h1, h2]

lemma freshInfo_congr (w w' : World) (rt : RuntimeType) (st : CacheState)
    (tr : List String)
    (hv : w.run (rt.name ++ " --version") = w'.run (rt.name ++ " --version"))
    (hc : w.run (rt.name ++ " compose version") = w'.run (rt.name ++ " compose version")) :
    freshInfo w rt st tr = freshInfo w' rt st tr := by
  unfold freshInfo
  rw [hv, hc]

lemma info_congr (w w' : World) (s : CacheState)
    (h1 : w.run "docker --version" = w'.run "docker --version")
    (h2 : w.run "podman --version" = w'.run "podman --version")
    (h3 : w.run "docker compose version" = w'.run "docker compose version")
    (h4 : w.run "podman compose version" = w'.run "podman compose version") :
    getRuntimeInfo w s = getRuntimeInfo w' s := by
  unfold getRuntimeInfo
  rw [detect_congr w w' s h1 h2]
  cases hv : (detectRuntime w' s).val with
  | none => simp only [hv]
  | some rt =>
    simp only [hv]
    cases hri : (detectRuntime w' s).st.runtimeInfo with
    | none =>
      simp only [hri]
      cases rt
      · exact freshInfo_congr w w' _ _ _ h1 h3
      · exact freshInfo_congr w w' _ _ _ h2 h4
    | some cached =>
      simp only [hri]
      by_cases hcx : cached.type = rt
      · simp [hcx]
      · simp only [if_neg hcx]
        cases rt
        · exact freshInfo_congr w w' _ _ _ h1 h3
        · exact freshInfo_congr w w' _ _ _ h2 h4

lemma running_congr (w w' : World) (s : CacheState)
    (h1 : w.run "docker --version" = w'.run "docker --version")
    (h2 : w.run "podman --version" = w'.run "podman --version")
    (h5 : w.run "docker ps" = w'.run "docker ps")
    (h6 : w.run "podman ps" = w'.run "podman ps") :
    isRuntimeRunning w s = isRuntimeRunning w' s := by
  unfold isRuntimeRunning getCommand
  rw [detect_congr w w' s h1 h2]
  cases hv : (detectRuntime w' s).val with
  | none =>
    simp only [hv]
    have e : ("docker" : String) ++ " ps" = "docker ps" := rfl
    rw [e, h5]
  | some rt =>
    cases rt
    · simp only [hv]
      have e : RuntimeType.docker.name ++ " ps" = "docker ps" := rfl
      rw [e, h5]
    · simp only [hv]
      have e : RuntimeType.podman.name ++ " ps" = "podman ps" := rfl
      rw [e, h6]

lemma group_congr (w w' : World) (s : CacheState)
    (h1 : w.run "docker --version" = w'.run "docker --version")
    (h2 : w.run "podman --version" = w'.run "podman --version")
    (h7 : w.run "id -Gn" = w'.run "id -Gn") :
    isUserInRuntimeGroup w s = isUserInRuntimeGroup w' s := by
  unfold isUserInRuntimeGroup
  rw [detect_congr w w' s h1 h2]
  cases hv : (detectRuntime w' s).val with
  | none => simp only [hv]
  | some rt =>
    cases rt
    · simp only [hv]
      rw [h7]
    · simp only [hv]

lemma detect_val_congr (w w' : World) (s s' : CacheState)
    (hs : s.detectedRuntime = s'.detectedRuntime)
    (h1 : w.run "docker --version" = w'.run "docker --version")
    (h2 : w.run "podman --version" = w'.run "podman --version") :
    (detectRuntime w s).val = (detectRuntime w' s').val := by
  unfold detectRuntime
  rw [hs, h1, h2]
  cases s'.detectedRuntime with
  | some r => rfl
  | none =>
    cases w'.run "docker --version" with
    | some out =>
      by_cases hp : strHasSub (lowerStr out) "podman" = true
      · simp [hp]
      · simp [hp]
    | none => cases w'.run "podman --version" <;> rfl

lemma detect_val_stable (w : World) (s : CacheState) :
    (detectRuntime w (detectRuntime w s).st).val = (detectRuntime w s).val := by
  cases hv : (detectRuntime w s).val with
  | none =>
    rw [detect_none_st w s hv]
    exact hv
  | some rt =>
    rw [detect_cached w _ rt (detect_val_st w s rt hv)]

lemma freshInfo_st_detected (w : World) (rt : RuntimeType) (st : CacheState)
    (tr : List String) :
    (freshInfo w rt st tr).st.detectedRuntime = st.detectedRuntime := by
  unfold freshInfo
  cases w.run (rt.name ++ " --version") <;> rfl

lemma info_st_detected (w : World) (s : CacheState) :
    (getRuntimeInfo w s).st.detectedRuntime = (detectRuntime w s).st.detectedRuntime := by
  unfold getRuntimeInfo
  cases hv : (detectRuntime w s).val with
  | none => simp [hv]
  | some rt =>
    cases hri : (detectRuntime w s).st.runtimeInfo with
    | none =>
      simp only [hv, hri]
      exact freshInfo_st_detected w rt _ _
    | some cached =>
      simp only [hv, hri]
      by_cases hc : cached.type = rt
      · simp [hc]
      · simp only [if_neg hc]
        exact freshInfo_st_detected w rt _ _

/-- The value `isRuntimeRunning` computes, as a function of detection and
the `ps` command. -/
lemma running_val (w : World) (s : CacheState) :
    (isRuntimeRunning w s).val =
      (match w.run ((match (detectRuntime w s).val with
                     | some rt => rt.name
                     | none => "docker") ++ " ps") with
       | some stdout => stdout != ""
       | none => false) := rfl

/-- The value `isUserInRuntimeGroup` computes, as a function of detection
and the `id -Gn` command. -/
lemma group_val (w : World) (s : CacheState) :
    (isUserInRuntimeGroup w s).val =
      (match (detectRuntime w s).val with
       | none => false
       | some RuntimeType.podman => true
       | some RuntimeType.docker =>
         match w.run "id -Gn" with
         | some out => (splitWs out).contains "docker"
         | none => false) := by
  unfold isUserInRuntimeGroup
  cases hv : (detectRuntime w s).val with
  | none => simp [hv]
  | some rt => cases rt <;> simp [hv]

/-- Detection value seen by the later links of the `getSpecs` chain. -/
lemma chain_detect_val (w : World) (s : CacheState) :
    (detectRuntime w (getRuntimeInfo w (detectRuntime w s).st).st).val
        = (detectRuntime w s).val
  ∧ (detectRuntime w
        (isRuntimeRunning w (getRuntimeInfo w (detectRuntime w s).st).st).st).val
        = (detectRuntime w s).val := by
  have e1 : (detectRuntime w (getRuntimeInfo w (detectRuntime w s).st).st).val
      = (detectRuntime w (detectRuntime w (detectRuntime w s).st).st).val :=
    detect_val_congr w w _ _ (by rw [info_st_detected]) rfl rfl
  have e2 : (detectRuntime w (detectRuntime w (detectRuntime w s).st).st).val
      = (detectRuntime w s).val := by
    rw [detect_val_stable, detect_val_stable]
  refine ⟨e1.trans e2, ?_⟩
  rw [running_st, detect_val_stable]
  exact e1.trans e2

lemma detect_st_detected_congr (w w' : World) (x x' : CacheState)
    (hs : x.detectedRuntime = x'.detectedRuntime)
    (h1 : w.run "docker --version" = w'.run "docker --version")
    (h2 : w.run "podman --version" = w'.run "podman --version") :
    (detectRuntime w x).st.detectedRuntime = (detectRuntime w' x').st.detectedRuntime := by
  unfold detectRuntime
  rw [hs, h1, h2]
  cases x'.detectedRuntime with
  | some r => simpa using hs
  | none =>
    cases w'.run "docker --version" with
    | some out =>
      by_cases hp : strHasSub (lowerStr out) "podman" = true
      · simp [hp]
      · simp [hp]
    | none => cases w'.run "podman --version" <;> simp [hs]

/-- When detection is already cached and no info is cached,
`getRuntimeInfo` takes the fresh-assembly path. -/
lemma info_val_fresh (w : World) (s : CacheState) (rt : RuntimeType)
    (hdet : s.detectedRuntime = some rt) (hri : s.runtimeInfo = none) :
    (getRuntimeInfo w s).val = (freshInfo w rt s []).val := by
  unfold getRuntimeInfo
  rw [detect_cached w s rt hdet]
  simp only [hri]

/-- A failing compose sub-probe forces the assembled info (if any) to
report the compose capability as absent. -/
lemma composeInstalled_of_composeFail (w : World) (rt : RuntimeType)
    (st : CacheState) (tr : List String)
    (hc : w.run (rt.name ++ " compose version") = none) :
    (match (freshInfo w rt st tr).val with
     | some i => i.composeInstalled
     | none => false) = false := by
  unfold freshInfo
  cases hv : w.run (rt.name ++ " --version") with
  | none => simp [hv]
  | some out => simp [hv, hc, composeFlags]

/-- Two `Specs` records with equal fields are equal. -/
lemma specs_ext (a b : Specs)
    (e1 : a.cpuCores = b.cpuCores) (e2 : a.ramGB = b.ramGB)
    (e3 : a.kvmEnabled = b.kvmEnabled) (e4 : a.dockerInstalled = b.dockerInstalled)
    (e5 : a.dockerComposeInstalled = b.dockerComposeInstalled)
    (e6 : a.dockerIsRunning = b.dockerIsRunning)
    (e7 : a.dockerIsInUserGroups = b.dockerIsInUserGroups)
    (e8 : a.freeRDP3Installed = b.freeRDP3Installed)
    (e9 : a.ipTablesLoaded = b.ipTablesLoaded)
    (e10 : a.iptableNatLoaded = b.iptableNatLoaded) : a = b := by
  cases a
  cases b
  simp_all

/-- A failing compose sub-probe leaves the assembled info with the
compose capability absent (or no info at all, when the version command
also failed). -/
lemma composeFail_freshInfo_val (w : World) (rt : RuntimeType) (st : CacheState)
    (tr : List String) (hc : w.run (rt.name ++ " compose version") = none) :
    (freshInfo w rt st tr).val = none
  ∨ ∃ ver, (freshInfo w rt st tr).val =
      some { type := rt, version := ver, composeInstalled := false, composeVersion := none } := by
  unfold freshInfo
  cases hv : w.run (rt.name ++ " --version") with
  | none => exact Or.inl (by simp)
  | some out =>
    refine Or.inr ⟨trimStr out, ?_⟩
    simp [hc, composeFlags]

/-- C9: only `getMemoryInfo` re-throws, and it does so exactly when the
`/proc/meminfo` read fails; `getSpecs` isolates every probe — making any
single probe fail changes exactly that probe's readiness field, which
falls back to its default (`false`/`0`), and leaves every sibling field
unchanged; with every probe failing, the collector still returns, with
all fields at their `defaultSpecs` values. -/
theorem C9_fault_isolation :
    (∀ m : Option String, getMemoryInfo m = Except.error () ↔ m = none)
  ∧ (∀ w s, (getSpecs (failMem w) s).1 = { (getSpecs w s).1 with ramGB := 0 })
  ∧ (∀ w s, (getSpecs (failCpuInfo w) s).1 = { (getSpecs w s).1 with kvmEnabled := false })
  ∧ (∀ w s, (getSpecs (failFreeRDP w) s).1 =
        { (getSpecs w s).1 with freeRDP3Installed := false })
  ∧ (∀ w s, (getSpecs (failCmd w lscpuCmd) s).1 = { (getSpecs w s).1 with cpuCores := 0 })
  ∧ (∀ w s, (getSpecs (failCmd w ipTablesCmd) s).1 =
        { (getSpecs w s).1 with ipTablesLoaded := false })
  ∧ (∀ w s, (getSpecs (failCmd w iptableNatCmd) s).1 =
        { (getSpecs w s).1 with iptableNatLoaded := false })
  ∧ (∀ w s, (getSpecs (failCmd w "id -Gn") s).1 =
        { (getSpecs w s).1 with dockerIsInUserGroups :=
            ((detectRuntime w s).val == some RuntimeType.podman) })
  ∧ (∀ w, (getSpecs (failCmd (failCmd w "docker ps") "podman ps") resetState).1 =
        { (getSpecs w resetState).1 with dockerIsRunning := false })
  ∧ (∀ w, (getSpecs (failCmd (failCmd w "docker compose version")
        "podman compose version") resetState).1 =
        { (getSpecs w resetState).1 with dockerComposeInstalled := false })
  ∧ (getSpecs wNone resetState).1 = defaultSpecs := by
  refine ⟨?_, fun w s => rfl, fun w s => rfl, fun w s => rfl, ?_, ?_, ?_, ?_, ?_, ?_, rfl⟩
  · intro m
    cases m with
    | none => simp [getMemoryInfo]
    | some x => simp [getMemoryInfo]
  · intro w s
    have hd := detect_congr (failCmd w lscpuCmd) w s rfl rfl
    have hr := info_congr (failCmd w lscpuCmd) w (detectRuntime w s).st rfl rfl rfl rfl
    have hrn := running_congr (failCmd w lscpuCmd) w
      (getRuntimeInfo w (detectRuntime w s).st).st rfl rfl rfl rfl
    have hg := group_congr (failCmd w lscpuCmd) w
      (isRuntimeRunning w (getRuntimeInfo w (detectRuntime w s).st).st).st rfl rfl rfl
    refine specs_ext _ _ rfl rfl rfl ?_ ?_ ?_ ?_ rfl rfl rfl
    · simp only [getSpecs, hd]
    · simp only [getSpecs, hd, hr]
    · simp only [getSpecs, hd, hr, hrn]
    · simp only [getSpecs, hd, hr, hrn, hg]
  · intro w s
    have hd := detect_congr (failCmd w ipTablesCmd) w s rfl rfl
    have hr := info_congr (failCmd w ipTablesCmd) w (detectRuntime w s).st rfl rfl rfl rfl
    have hrn := running_congr (failCmd w ipTablesCmd) w
      (getRuntimeInfo w (detectRuntime w s).st).st rfl rfl rfl rfl
    have hg := group_congr (failCmd w ipTablesCmd) w
      (isRuntimeRunning w (getRuntimeInfo w (detectRuntime w s).st).st).st rfl rfl rfl
    refine specs_ext _ _ rfl rfl rfl ?_ ?_ ?_ ?_ rfl rfl rfl
    · simp only [getSpecs, hd]
    · simp only [getSpecs, hd, hr]
    · simp only [getSpecs, hd, hr, hrn]
    · simp only [getSpecs, hd, hr, hrn, hg]
  · intro w s
    have hd := detect_congr (failCmd w iptableNatCmd) w s rfl rfl
    have hr := info_congr (failCmd w iptableNatCmd) w (detectRuntime w s).st rfl rfl rfl rfl
    have hrn := running_congr (failCmd w iptableNatCmd) w
      (getRuntimeInfo w (detectRuntime w s).st).st rfl rfl rfl rfl
    have hg := group_congr (failCmd w iptableNatCmd) w
      (isRuntimeRunning w (getRuntimeInfo w (detectRuntime w s).st).st).st rfl rfl rfl
    refine specs_ext _ _ rfl rfl rfl ?_ ?_ ?_ ?_ rfl rfl rfl
    · simp only [getSpecs, hd]
    · simp only [getSpecs, hd, hr]
    · simp only [getSpecs, hd, hr, hrn]
    · simp only [getSpecs, hd, hr, hrn, hg]
  · intro w s
    have hd := detect_congr (failCmd w "id -Gn") w s rfl rfl
    have hr := info_congr (failCmd w "id -Gn") w (detectRuntime w s).st rfl rfl rfl rfl
    have hrn := running_congr (failCmd w "id -Gn") w
      (getRuntimeInfo w (detectRuntime w s).st).st rfl rfl rfl rfl
    refine specs_ext _ _ rfl rfl rfl ?_ ?_ ?_ ?_ rfl rfl rfl
    · simp only [getSpecs, hd]
    · simp only [getSpecs, hd, hr]
    · simp only [getSpecs, hd, hr, hrn]
    · simp only [getSpecs, hd, hr, hrn]
      rw [group_val]
      have hX : (detectRuntime (failCmd w "id -Gn")
          (isRuntimeRunning w (getRuntimeInfo w (detectRuntime w s).st).st).st).val
          = (detectRuntime w s).val := by
        rw [detect_val_congr (failCmd w "id -Gn") w _ _ rfl rfl rfl]
        exact (chain_detect_val w s).2
      rw [hX]
      cases hv : (detectRuntime w s).val with
      | none => rfl
      | some rt => cases rt <;> rfl
  · intro w
    have hd := detect_congr (failCmd (failCmd w "docker ps") "podman ps") w resetState rfl rfl
    have hr := info_congr (failCmd (failCmd w "docker ps") "podman ps") w
      (detectRuntime w resetState).st rfl rfl rfl rfl
    refine specs_ext _ _ rfl rfl rfl ?_ ?_ ?_ ?_ rfl rfl rfl
    · simp only [getSpecs, hd]
    · simp only [getSpecs, hd, hr]
    · simp only [getSpecs, hd, hr]
      rw [running_val]
      have hX : (detectRuntime (failCmd (failCmd w "docker ps") "podman ps")
          (getRuntimeInfo w (detectRuntime w resetState).st).st).val
          = (detectRuntime w (getRuntimeInfo w (detectRuntime w resetState).st).st).val :=
        detect_val_congr _ w _ _ rfl rfl rfl
      rw [hX]
      cases hv : (detectRuntime w (getRuntimeInfo w (detectRuntime w resetState).st).st).val with
      | none => rfl
      | some rt => cases rt <;> rfl
    · simp only [getSpecs, hd, hr]
      rw [running_st, running_st,
          detect_congr (failCmd (failCmd w "docker ps") "podman ps") w
            (getRuntimeInfo w (detectRuntime w resetState).st).st rfl rfl,
          group_congr (failCmd (failCmd w "docker ps") "podman ps") w _ rfl rfl rfl]
  · intro w
    have hd := detect_congr (failCmd (failCmd w "docker compose version")
      "podman compose version") w resetState rfl rfl
    refine specs_ext _ _ rfl rfl rfl ?_ ?_ ?_ ?_ rfl rfl rfl
    · simp only [getSpecs, hd]
    · simp only [getSpecs, hd]
      cases hv : (detectRuntime w resetState).val with
      | none =>
        rw [detect_none_st w resetState hv]
        have hnone : (getRuntimeInfo (failCmd (failCmd w "docker compose version")
            "podman compose version") resetState).val = none := by
          unfold getRuntimeInfo
          rw [hd]
          simp [hv]
        rw [hnone]
      | some rt =>
        rw [info_val_fresh (failCmd (failCmd w "docker compose version")
              "podman compose version")
              (detectRuntime w resetState).st rt (detect_val_st w resetState rt hv)
              (by rw [detect_st_runtimeInfo]; rfl)]
        rcases composeFail_freshInfo_val (failCmd (failCmd w "docker compose version")
            "podman compose version") rt (detectRuntime w resetState).st []
            (by cases rt <;> rfl) with h | ⟨ver, h⟩
        · rw [h]
        · rw [h]
    · simp only [getSpecs, hd]
      rw [running_val, running_val]
      have hsd : (getRuntimeInfo (failCmd (failCmd w "docker compose version")
          "podman compose version") (detectRuntime w resetState).st).st.detectedRuntime
          = (getRuntimeInfo w (detectRuntime w resetState).st).st.detectedRuntime := by
        rw [info_st_detected, info_st_detected,
            detect_st_detected_congr (failCmd (failCmd w "docker compose version")
              "podman compose version") w _ _ rfl rfl rfl]
      have hL := detect_val_congr (failCmd (failCmd w "docker compose version")
          "podman compose version") w _ _ hsd rfl rfl
      rw [hL]
      cases hv2 : (detectRuntime w (getRuntimeInfo w
          (detectRuntime w resetState).st).st).val with
      | none => rfl
      | some rt => cases rt <;> rfl
    · simp only [getSpecs, hd]
      rw [group_val, group_val]
      have hsd : (getRuntimeInfo (failCmd (failCmd w "docker compose version")
          "podman compose version") (detectRuntime w resetState).st).st.detectedRuntime
          = (getRuntimeInfo w (detectRuntime w resetState).st).st.detectedRuntime := by
        rw [info_st_detected, info_st_detected,
            detect_st_detected_congr (failCmd (failCmd w "docker compose version")
              "podman compose version") w _ _ rfl rfl rfl]
      have hsd2 : (isRuntimeRunning (failCmd (failCmd w "docker compose version")
          "podman compose version") (getRuntimeInfo (failCmd (failCmd w "docker compose version")
            "podman compose version") (detectRuntime w resetState).st).st).st.detectedRuntime
          = (isRuntimeRunning w
              (getRuntimeInfo w (detectRuntime w resetState).st).st).st.detectedRuntime := by
        rw [running_st, running_st,
            detect_st_detected_congr (failCmd (failCmd w "docker compose version")
              "podman compose version") w _ _ hsd rfl rfl]
      have hL2 := detect_val_congr (failCmd (failCmd w "docker compose version")
          "podman compose version") w _ _ hsd2 rfl rfl
      rw [hL2]
      cases hv2 : (detectRuntime w (isRuntimeRunning w (getRuntimeInfo w
          (detectRuntime w resetState).st).st).st).val with
      | none => rfl
      | some rt => cases rt <;> rfl

end Winboat
